import Mathlib

/-!
Verification of the update-classification-and-dispatch engine and the encrypted
flow-request handler of `pywa/server.py` (package `pywa`, version 1.13.0-rc.4).

The development shallowly embeds the relevant code:

* raw webhook payloads are modelled as a `JSON` inductive; the Python subscript,
  index and membership operations are modelled with their error behaviour
  (`KeyError` / `IndexError` / `TypeError`), since `Server._get_handler` and
  `Server._call_handlers` distinguish exactly those;
* `Server._get_handler` becomes `Pywa.getHandler`, `Server._call_handlers`
  becomes `Pywa.callHandlers` (the handlers themselves are represented by their
  observable outcomes: return normally, raise an error, or raise `StopHandling`);
* the flow-endpoint closure `flow_request_handler` becomes
  `Pywa.flowRequestHandler`; the decryptor, the `FlowRequest.from_dict`
  constructor and the application callback are external collaborators of the
  handler and enter as components of `Pywa.FlowConfig`; the response encryptor
  is represented symbolically by the `Body.encrypted` constructor, which records
  the payload mapping, the AES key and the IV passed to it;
* the challenge closure `challenge_handler` becomes `Pywa.challengeHandler`.
-/

namespace Pywa

/-- A JSON-like value, the shape of raw webhook payloads and decrypted flow
payloads (Python `dict` / `list` / `str` / numbers / booleans / `None`). -/
inductive JSON where
  | str (s : String)
  | num (n : Int)
  | bool (b : Bool)
  | null
  | arr (xs : List JSON)
  | obj (kvs : List (String × JSON))

/-- The Python exception kinds that `pywa/server.py` distinguishes when reading
raw payloads (`except KeyError` vs. the broader catches). -/
inductive PyErr where
  | keyError
  | indexError
  | typeError
  | valueError
deriving DecidableEq

/-- Association-list lookup for `JSON.obj` (Python `dict` subscript). -/
def lookupKey : List (String × JSON) → String → Option JSON
  | [], _ => none
  | (k, v) :: rest, key => if k = key then some v else lookupKey rest key

/-- Python `x == "s"` where `x` is an arbitrary payload value: true exactly for
the equal string, false (never an error) for every other value. -/
def JSON.eqStr : JSON → String → Bool
  | .str t, s => t = s
  | _, _ => false

/-- Python `value[key]` with a string key: `dict` lookup raising `KeyError` on a
missing key; every other value raises `TypeError` (strings and lists cannot be
subscripted by a string). -/
def pySub : JSON → String → Except PyErr JSON
  | .obj kvs, key =>
    match lookupKey kvs key with
    | some v => .ok v
    | none => .error .keyError
  | _, _ => .error .typeError

/-- Python `value[i]` with a non-negative integer index: list indexing raising
`IndexError` out of range; indexing a string yields a one-character string;
`dict` subscript with an integer key raises `KeyError` (the modelled objects
have only string keys); other values raise `TypeError`. -/
def pyIdx : JSON → Nat → Except PyErr JSON
  | .arr xs, i =>
    match xs[i]? with
    | some v => .ok v
    | none => .error .indexError
  | .str s, i =>
    match s.toList[i]? with
    | some c => .ok (.str (String.mk [c]))
    | none => .error .indexError
  | .obj _, _ => .error .keyError
  | _, _ => .error .typeError

/-- Bool-valued test that one character list starts with another. -/
def charsStartWith : List Char → List Char → Bool
  | [], _ => true
  | _ :: _, [] => false
  | a :: as, b :: bs => a = b && charsStartWith as bs

/-- Bool-valued substring test on character lists. -/
def charsContain (needle : List Char) : List Char → Bool
  | [] => charsStartWith needle []
  | c :: rest => charsStartWith needle (c :: rest) || charsContain needle rest

/-- Python `key in value`: key containment for a `dict`, element membership for
a list, substring containment for a string, `TypeError` for other values. -/
def pyContains : JSON → String → Except PyErr Bool
  | .obj kvs, key => .ok (kvs.any fun kv => kv.1 = key)
  | .arr xs, key => .ok (xs.any fun x => x.eqStr key)
  | .str s, key => .ok (charsContain key.toList s.toList)
  | _, _ => .error .typeError

/-- The handler categories of `pywa.handlers` referenced by `server.py`
(`MessageHandler`, `CallbackButtonHandler`, `CallbackSelectionHandler`,
`FlowCompletionHandler`, `MessageStatusHandler`, `ChatOpenedHandler`,
`RawUpdateHandler`). -/
inductive HandlerType where
  | message
  | callbackButton
  | callbackSelection
  | flowCompletion
  | messageStatus
  | chatOpened
  | rawUpdate
deriving DecidableEq

/-- Source table `_INTERACTIVE_TYPES` (`server.py` lines 40-44), applied with
Python `.get`: a non-string hashable key is simply absent, an unhashable key
(list or dict) raises `TypeError`. -/
def interactiveTypesGet (t : JSON) : Except PyErr (Option HandlerType) :=
  match t with
  | .str s =>
    .ok (if s = "button_reply" then some .callbackButton
         else if s = "list_reply" then some .callbackSelection
         else if s = "nfm_reply" then some .flowCompletion
         else none)
  | .arr _ => .error .typeError
  | .obj _ => .error .typeError
  | _ => .ok none

/-- Source table `_MESSAGE_TYPES` (`server.py` lines 36-39), applied with
Python `.get`. Modelled from the spec: the `MessageType` string-enum values
(module `pywa.types` is not under src/); the spec names a legacy "button" type
and a "chat opened" (`request_welcome`) type, both distinct from
`interactive`. -/
def messageTypesGet (t : JSON) : Except PyErr (Option HandlerType) :=
  match t with
  | .str s =>
    .ok (if s = "button" then some .callbackButton
         else if s = "request_welcome" then some .chatOpened
         else none)
  | .arr _ => .error .typeError
  | .obj _ => .error .typeError
  | _ => .ok none

/-- Observable behaviour of one registered handler when invoked by the dispatch
loop (`handler.handle(...)` in `_call_handlers`): return normally, raise an
ordinary exception, or raise the `StopHandling` signal. -/
inductive HOutcome where
  | ok
  | err
  | stop
deriving DecidableEq

/-- Configuration and collaborator state of the `Server` as seen by
`_get_handler` / `_call_handlers`: the `filter_updates` flag and `phone_id` of
the client, the `Handler._fields_to_subclasses()` table (module
`pywa.handlers` is not under src/, so the table is kept abstract), the handler
registry `self._handlers`, and the success of each category's
`_update_constructor`. -/
structure ServerCfg where
  filterUpdates : Bool
  phoneId : String
  fieldsToSubclasses : String → Option HandlerType
  handlers : HandlerType → List HOutcome
  constructOk : HandlerType → JSON → Bool

/-- The extraction prelude of `_get_handler` (lines 238-242): read
`update["entry"][0]["changes"][0]["field"]` and `...["value"]`; any
`KeyError` / `IndexError` / `TypeError` is re-raised as `ValueError` by the
source, so only failure as such matters to callers. -/
def extractChange (update : JSON) : Except PyErr (JSON × JSON) := do
  let entry ← pySub update "entry"
  let e0 ← pyIdx entry 0
  let changes ← pySub e0 "changes"
  let c0 ← pyIdx changes 0
  let field ← pySub c0 "field"
  let value ← pySub c0 "value"
  return (field, value)

/-- The recipient-identity guard of `_get_handler` (line 247-249):
`not self.filter_updates or value["metadata"]["phone_number_id"] == self.phone_id`,
with Python short-circuiting (no subscript happens when filtering is off). -/
def filterCheck (cfg : ServerCfg) (value : JSON) : Except PyErr Bool :=
  if cfg.filterUpdates then
    match pySub value "metadata" with
    | .error e => .error e
    | .ok md =>
      match pySub md "phone_number_id" with
      | .error e => .error e
      | .ok p => .ok (p.eqStr cfg.phoneId)
  else .ok true

/-- The `try: value["messages"][0]["interactive"]["type"] except KeyError`
probe of `_get_handler` (lines 253-258), applied to the already-extracted
first message. -/
def interactiveSubtype (m0 : JSON) : Except PyErr JSON :=
  match pySub m0 "interactive" with
  | .error e => .error e
  | .ok iv => pySub iv "type"

/-- Embedding of `Server._get_handler` (`server.py` lines 236-280). `.error`
is a raised exception (the extraction prelude raises `ValueError`; later
subscripts raise through), `.ok none` is an explicit `return None`, and
`.ok (some t)` is a returned handler class. -/
def getHandler (cfg : ServerCfg) (update : JSON) : Except PyErr (Option HandlerType) :=
  match extractChange update with
  | .error _ => .error .valueError
  | .ok (field, value) =>
    if field.eqStr "messages" then
      match filterCheck cfg value with
      | .error e => .error e
      | .ok false => .ok none
      | .ok true =>
        match pyContains value "messages" with
        | .error e => .error e
        | .ok true =>
          match pySub value "messages" with
          | .error e => .error e
          | .ok msgs =>
            match pyIdx msgs 0 with
            | .error e => .error e
            | .ok m0 =>
              match pySub m0 "type" with
              | .error e => .error e
              | .ok msgType =>
                if msgType.eqStr "interactive" then
                  match interactiveSubtype m0 with
                  | .error .keyError => .ok (some .message)
                  | .error e => .error e
                  | .ok ityp =>
                    match interactiveTypesGet ityp with
                    | .error e => .error e
                    | .ok (some h) => .ok (some h)
                    | .ok none =>
                      match messageTypesGet msgType with
                      | .error e => .error e
                      | .ok h => .ok (some (h.getD .message))
                else
                  match messageTypesGet msgType with
                  | .error e => .error e
                  | .ok h => .ok (some (h.getD .message))
        | .ok false =>
          match pyContains value "statuses" with
          | .error e => .error e
          | .ok true => .ok (some .messageStatus)
          | .ok false => .ok none
    else
      match field with
      | .str s => .ok (cfg.fieldsToSubclasses s)
      | .arr _ => .error .typeError
      | .obj _ => .error .typeError
      | _ => .ok none

/-- One observable handler invocation performed by `_call_handlers`: a category
handler (called with the constructed update) or a raw-update handler, called
with the raw `update` dict it receives. -/
inductive Event where
  | cat (i : Nat)
  | raw (i : Nat) (u : JSON)

/-- One `for handler in ...` loop of `_call_handlers`: each handler is invoked
in list order; an ordinary exception is caught and the loop continues; the
`StopHandling` signal breaks the loop after the raising handler ran. -/
def runLoop (mk : Nat → Event) (i : Nat) : List HOutcome → List Event
  | [] => []
  | h :: rest =>
    mk i :: (if h = HOutcome.stop then [] else runLoop mk (i + 1) rest)

/-- Number of handlers of a loop that actually run: everything up to and
including the first `StopHandling` raiser. -/
def runCount : List HOutcome → Nat
  | [] => 0
  | h :: rest => if h = HOutcome.stop then 1 else runCount rest + 1

/-- Embedding of `Server._call_handlers` (`server.py` lines 186-234), returning
the sequence of handler invocations it performs. A classification exception is
caught by the `except (ValueError, KeyError, TypeError, IndexError)` clause and
the method returns at once — nothing runs. Otherwise the classified category's
loop runs (when classification yielded a category and the update constructor
succeeded; a constructor failure is caught and skips only that loop), followed
by the raw-update loop over `self._handlers[RawUpdateHandler]`. -/
def callHandlers (cfg : ServerCfg) (update : JSON) : List Event :=
  match getHandler cfg update with
  | .error _ => []
  | .ok ht =>
    (match ht with
     | none => []
     | some t =>
       if cfg.constructOk t update then runLoop Event.cat 0 (cfg.handlers t) else []) ++
    runLoop (fun i => Event.raw i update) 0 (cfg.handlers HandlerType.rawUpdate)

/-- Embedding of the `challenge_handler` closure (`server.py` lines 87-101). -/
def challengeHandler (verifyToken vt ch : String) : String × Nat :=
  if vt = verifyToken then (ch, 200)
  else ("Error, invalid verification token", 403)

/-- Modelled from the spec: `FlowRequestCannotBeDecrypted.status_code` — the
class lives in `pywa/types/flows.py`, which is not under src/; the spec fixes
the decryption-failure status code at 421. -/
def flowRequestCannotBeDecryptedStatusCode : Nat := 421

/-- A `FlowResponseError` instance as `flow_request_handler` observes it:
whether it is (an instance of) `FlowTokenNoLongerValid`, its class name
(`e.__class__.__name__`), its `error_message` and its `status_code`. -/
structure FlowRespError where
  isTokenNoLongerValid : Bool
  className : String
  errorMessage : String
  statusCode : Nat

/-- The typed `FlowRequest` produced by `FlowRequest.from_dict`, restricted to
the attributes `flow_request_handler` reads: `version` and `has_error`. -/
structure FlowRequest where
  version : String
  hasError : Bool

/-- A value returned by the application callback: a `FlowResponse` object
(carrying the dict its `to_dict()` yields), a plain dict, a returned
`FlowResponseError` instance, or anything else. -/
inductive CallbackValue where
  | flowResponse (d : JSON)
  | dict (d : JSON)
  | flowError (e : FlowRespError)
  | other

/-- Whether a returned callback value is a `FlowResponseError` instance. -/
def CallbackValue.isFlowError : CallbackValue → Bool
  | .flowError _ => true
  | _ => false

/-- An exception raised by the application callback: a `FlowResponseError`
(including its `FlowTokenNoLongerValid` subclass) or any other exception. -/
inductive PyExc where
  | flowError (e : FlowRespError)
  | other

/-- Observable behaviour of one application-callback invocation. -/
inductive CallbackOutcome where
  | returns (v : CallbackValue)
  | raises (e : PyExc)

/-- Configuration of one registered flow endpoint: the two mode flags and the
three collaborators `flow_request_handler` drives. `decryptor payload = none`
covers every way the decryption `try` block can fail (missing payload keys or
`request_decryptor` raising); `fromDict = none` is `FlowRequest.from_dict`
raising. -/
structure FlowConfig where
  acknowledgeErrors : Bool
  handleHealthCheck : Bool
  decryptor : JSON → Option (JSON × String × String)
  fromDict : JSON → Option FlowRequest
  callback : FlowRequest → CallbackOutcome

/-- A response body produced by `flow_request_handler`: either plaintext, or
the result of `response_encryptor(payload, aes_key, iv)`, recorded
symbolically with its three arguments. -/
inductive Body where
  | plain (s : String)
  | encrypted (payload : JSON) (aesKey : String) (iv : String)

/-- Result of one `flow_request_handler` call: the `(body, status)` pair it
returns (`none` when it raises out of the handler, as the final `TypeError`
does), plus whether the application callback was invoked. -/
structure FlowResult where
  response : Option (Body × Nat)
  callbackInvoked : Bool

/-- Outcome of the health-check test (`server.py` lines 356-364):
`if handle_health_check and decrypted_request["action"] == "ping"`, building
the reply from `decrypted_request["version"]`. A missing `action` (when the
flag is on) or a missing `version` (in the ping branch) raises out of the
handler. -/
inductive HealthOutcome where
  | raise
  | ping (v : JSON)
  | cont

/-- The health-check stage of `flow_request_handler`, with Python
short-circuiting: `decrypted_request["action"]` is only read when
`handle_health_check` is set. -/
def healthCheckStage (cfg : FlowConfig) (decrypted : JSON) : HealthOutcome :=
  if cfg.handleHealthCheck then
    match pySub decrypted "action" with
    | .error _ => .raise
    | .ok a =>
      if a.eqStr "ping" then
        match pySub decrypted "version" with
        | .error _ => .raise
        | .ok v => .ping v
      else .cont
  else .cont

/-- The callback-invocation block of `flow_request_handler` (`server.py` lines
377-419): a returned `FlowResponseError` instance is immediately re-raised
(`if isinstance(response, FlowResponseError): raise response`), so it reaches
the same `except` clauses as a raised one; `except FlowTokenNoLongerValid`
comes before `except FlowResponseError`, then `except Exception`; after a
normal return, the error-acknowledgment short-circuit precedes the
`isinstance(response, (FlowResponse | dict))` type check, whose `TypeError`
raises out of the handler. -/
def flowInvoke (cfg : FlowConfig) (req : FlowRequest) (aesKey iv : String) : FlowResult :=
  let out := cfg.callback req
  let raised : Option PyExc :=
    match out with
    | .raises e => some e
    | .returns (.flowError e) => some (.flowError e)
    | .returns _ => none
  match raised with
  | some (.flowError e) =>
    if e.isTokenNoLongerValid then
      ⟨some (.encrypted (.obj [("error_msg", .str e.errorMessage)]) aesKey iv,
             e.statusCode), true⟩
    else ⟨some (.plain e.className, e.statusCode), true⟩
  | some .other => ⟨some (.plain "An error occurred", 500), true⟩
  | none =>
    if cfg.acknowledgeErrors && req.hasError then
      ⟨some (.encrypted
              (.obj [("version", .str req.version),
                     ("data", .obj [("acknowledged", .bool true)])])
              aesKey iv, 200), true⟩
    else
      match out with
      | .returns (.flowResponse d) => ⟨some (.encrypted d aesKey iv, 200), true⟩
      | .returns (.dict d) => ⟨some (.encrypted d aesKey iv, 200), true⟩
      | _ => ⟨none, true⟩

/-- Embedding of the `flow_request_handler` closure (`server.py` lines
334-419): decrypt (any failure yields the fixed plaintext body and the
`FlowRequestCannotBeDecrypted` status code before anything else runs), then
the health-check stage, then `FlowRequest.from_dict` (failure yields the
plaintext construction-failure body, 500), then the callback block. -/
def flowRequestHandler (cfg : FlowConfig) (payload : JSON) : FlowResult :=
  match cfg.decryptor payload with
  | none =>
    ⟨some (.plain "Decryption failed", flowRequestCannotBeDecryptedStatusCode), false⟩
  | some (decrypted, aesKey, iv) =>
    match healthCheckStage cfg decrypted with
    | .raise => ⟨none, false⟩
    | .ping v =>
      ⟨some (.encrypted
              (.obj [("version", v), ("data", .obj [("status", .str "active")])])
              aesKey iv, 200), false⟩
    | .cont =>
      match cfg.fromDict decrypted with
      | none => ⟨some (.plain "Failed to construct FlowRequest", 500), false⟩
      | some req => flowInvoke cfg req aesKey iv

/-- Test-input builder: a well-shaped update whose first entry's first change
carries the given `field` and `value`. -/
def mkUpdate (field : String) (value : JSON) : JSON :=
  .obj [("entry",
    .arr [.obj [("changes",
      .arr [.obj [("field", .str field), ("value", value)]])]])]

/-- Concrete malformed update for C1: an empty payload object. -/
def c1bad : JSON := .obj []

/-- Concrete server configuration for C1: one registered raw-update handler. -/
def c1cfg : ServerCfg :=
  { filterUpdates := false
    phoneId := "1"
    fieldsToSubclasses := fun _ => none
    handlers := fun t =>
      match t with
      | .rawUpdate => [.ok]
      | _ => []
    constructOk := fun _ _ => true }

/-- Concrete server configuration for C2: four message-status handlers (the
third raises stop-propagation), two raw-update handlers (the first raises
stop-propagation). -/
def c2cfg : ServerCfg :=
  { filterUpdates := false
    phoneId := "1"
    fieldsToSubclasses := fun _ => none
    handlers := fun t =>
      match t with
      | .messageStatus => [.ok, .err, .stop, .ok]
      | .rawUpdate => [.stop, .ok]
      | _ => []
    constructOk := fun _ _ => true }

/-- Concrete status-bearing update for C2. -/
def c2update : JSON :=
  mkUpdate "messages" (.obj [("statuses", .arr [.obj []])])

/-- Concrete server configuration for the C6 counterexample: filtering on,
configured phone id `111`. -/
def c6cfg : ServerCfg :=
  { filterUpdates := true
    phoneId := "111"
    fieldsToSubclasses := fun _ => none
    handlers := fun _ => []
    constructOk := fun _ _ => true }

/-- Change value for the C6 counterexample: recipient id `222`, an interactive
first message without the sub-type key. -/
def c6value : JSON :=
  .obj [("metadata", .obj [("phone_number_id", .str "222")]),
        ("messages", .arr [.obj [("type", .str "interactive")]])]

/-- Full update for the C6 counterexample. -/
def c6update : JSON := mkUpdate "messages" c6value

/-- Concrete server configuration for the C6 witness: filtering off. -/
def c6wcfg : ServerCfg :=
  { filterUpdates := false
    phoneId := "111"
    fieldsToSubclasses := fun _ => none
    handlers := fun _ => []
    constructOk := fun _ _ => true }

/-- Interactive message without sub-type key (C6 witness, first case). -/
def c6wmsgA : JSON := .obj [("type", .str "interactive")]

/-- Change value around `c6wmsgA`. -/
def c6wvalueA : JSON := .obj [("messages", .arr [c6wmsgA])]

/-- Full update around `c6wvalueA`. -/
def c6wupdateA : JSON := mkUpdate "messages" c6wvalueA

/-- Interactive message with unknown sub-type `weird_reply` (C6 witness,
second case). -/
def c6wmsgB : JSON :=
  .obj [("type", .str "interactive"),
        ("interactive", .obj [("type", .str "weird_reply")])]

/-- Change value around `c6wmsgB`. -/
def c6wvalueB : JSON := .obj [("messages", .arr [c6wmsgB])]

/-- Full update around `c6wvalueB`. -/
def c6wupdateB : JSON := mkUpdate "messages" c6wvalueB

/-- Concrete server configuration for C7: empty field table, two raw-update
handlers, one message handler. -/
def c7cfg : ServerCfg :=
  { filterUpdates := false
    phoneId := "1"
    fieldsToSubclasses := fun _ => none
    handlers := fun t =>
      match t with
      | .rawUpdate => [.ok, .ok]
      | _ => [.ok]
    constructOk := fun _ _ => true }

/-- Concrete update for C7 with the unrecognized field `account_update`. -/
def c7update : JSON := mkUpdate "account_update" (.obj [])

/-- Concrete flow configuration for C3: the decryption step fails on every
payload. -/
def c3cfg : FlowConfig :=
  { acknowledgeErrors := false
    handleHealthCheck := false
    decryptor := fun _ => none
    fromDict := fun _ => none
    callback := fun _ => .returns .other }

/-- Concrete decrypted health-check request for C5. -/
def c5dec : JSON := .obj [("version", .str "3.0"), ("action", .str "ping")]

/-- Concrete flow configuration for C5: health-check handling on, every
payload decrypts to `c5dec`. -/
def c5cfg : FlowConfig :=
  { acknowledgeErrors := false
    handleHealthCheck := true
    decryptor := fun _ => some (c5dec, "aes", "iv")
    fromDict := fun _ => none
    callback := fun _ => .returns .other }

/-- Concrete parsed request for C4: it reports an existing error condition. -/
def c4req : FlowRequest := { version := "3.0", hasError := true }

/-- Concrete non-token flow-response error for the C4 counterexample. -/
def c4err : FlowRespError :=
  { isTokenNoLongerValid := false
    className := "FlowResponseRejected"
    errorMessage := "rejected"
    statusCode := 430 }

/-- Concrete flow configuration for the C4 counterexample: acknowledge-errors
mode on, the request has an error, and the callback returns (not raises) a
`FlowResponseError` value. -/
def c4cfg : FlowConfig :=
  { acknowledgeErrors := true
    handleHealthCheck := false
    decryptor := fun _ => some (.obj [], "aes", "iv")
    fromDict := fun _ => some c4req
    callback := fun _ => .returns (.flowError c4err) }

/-- Concrete flow configuration for the C4 witness: as `c4cfg`, but the
callback returns a value that is not even an accepted response shape. -/
def c4wcfg : FlowConfig :=
  { acknowledgeErrors := true
    handleHealthCheck := false
    decryptor := fun _ => some (.obj [], "aes", "iv")
    fromDict := fun _ => some c4req
    callback := fun _ => .returns .other }

/-- Concrete parsed request for C8. -/
def c8req : FlowRequest := { version := "3.0", hasError := false }

/-- Concrete `FlowTokenNoLongerValid` error for C8: message `expired`,
status 427. -/
def c8err : FlowRespError :=
  { isTokenNoLongerValid := true
    className := "FlowTokenNoLongerValid"
    errorMessage := "expired"
    statusCode := 427 }

/-- Concrete flow configuration for C8: the callback raises `c8err`. -/
def c8cfg : FlowConfig :=
  { acknowledgeErrors := false
    handleHealthCheck := false
    decryptor := fun _ => some (.obj [], "aes", "iv")
    fromDict := fun _ => some c8req
    callback := fun _ => .raises (.flowError c8err) }

/-- Concrete parsed request for the C10 witness. -/
def c10req : FlowRequest := { version := "3.0", hasError := false }

/-- Concrete token-no-longer-valid error for the C10 witness. -/
def c10err : FlowRespError :=
  { isTokenNoLongerValid := true
    className := "FlowTokenNoLongerValid"
    errorMessage := "gone"
    statusCode := 427 }

/-- Concrete flow configuration whose callback returns `c10err` as a value. -/
def c10cfgRet : FlowConfig :=
  { acknowledgeErrors := true
    handleHealthCheck := false
    decryptor := fun _ => some (.obj [], "aes", "iv")
    fromDict := fun _ => some c10req
    callback := fun _ => .returns (.flowError c10err) }

/-- Concrete flow configuration whose callback raises `c10err`. -/
def c10cfgRaise : FlowConfig :=
  { acknowledgeErrors := true
    handleHealthCheck := false
    decryptor := fun _ => some (.obj [], "aes", "iv")
    fromDict := fun _ => some c10req
    callback := fun _ => .raises (.flowError c10err) }

/-- A handler loop invokes the handlers of consecutive indices starting at
`i`, one invocation per handler that runs. -/
theorem runLoop_eq_range (mk : Nat → Event) (i : Nat) (hs : List HOutcome) :
    runLoop mk i hs = (List.range (runCount hs)).map (fun j => mk (i + j)) := by
  induction hs generalizing i with
  | nil => simp [runLoop, runCount]
  | cons h rest ih =>
    by_cases hstop : h = HOutcome.stop
    · subst hstop
      simp [runLoop, runCount, List.range_succ_eq_map]
    · have hfun : ((fun j => mk (i + j)) ∘ Nat.succ) = (fun j => mk (i + 1 + j)) := by
        funext j
        have harg : i + Nat.succ j = i + 1 + j := by omega
        simp [Function.comp, harg]
      simp [runLoop, runCount, hstop, List.range_succ_eq_map, ih, List.map_map, hfun]

/-- Characterization of which handlers of a loop run: handler `i` runs exactly
when it is registered and no handler registered before it raised the
stop-propagation signal (the raiser itself still runs). -/
theorem runCount_lt_iff (hs : List HOutcome) (i : Nat) :
    i < runCount hs ↔ i < hs.length ∧ ∀ j, j < i → hs.get? j ≠ some HOutcome.stop := by
  induction hs generalizing i with
  | nil => simp [runCount]
  | cons h rest ih =>
    by_cases hstop : h = HOutcome.stop
    · subst hstop
      have hrc : runCount (HOutcome.stop :: rest) = 1 := by simp [runCount]
      rw [hrc]
      constructor
      · intro hi
        have hi0 : i = 0 := by omega
        subst hi0
        exact ⟨by simp, fun j hj => absurd hj (by omega)⟩
      · rintro ⟨hlen, hns⟩
        by_contra hge
        have h1 : 0 < i := by omega
        have := hns 0 h1
        simp at this
    · have hrc : runCount (h :: rest) = runCount rest + 1 := by
        simp [runCount, hstop]
      rw [hrc]
      cases i with
      | zero =>
        constructor
        · intro _
          exact ⟨by simp, fun j hj => absurd hj (by omega)⟩
        · intro _
          omega
      | succ n =>
        rw [Nat.succ_lt_succ_iff, ih, List.length_cons, Nat.succ_lt_succ_iff]
        constructor
        · rintro ⟨hl, hns⟩
          refine ⟨hl, fun j hj => ?_⟩
          cases j with
          | zero => simp [hstop]
          | succ m =>
            rw [List.get?_cons_succ]
            exact hns m (by omega)
        · rintro ⟨hl, hns⟩
          refine ⟨hl, fun j hj => ?_⟩
          have := hns (j + 1) (by omega)
          rwa [List.get?_cons_succ] at this

/-- C1 counterexample: the empty update `{}` has no entries, so the classifier
cannot extract the first change (`extractChange` fails); with one registered
raw-update handler, dispatch performs no invocation at all — in particular the
registered raw-update handler does not run, contradicting the claim that every
raw-update handler still runs on such input. -/
theorem C1_counterexample :
    extractChange c1bad = Except.error PyErr.keyError ∧
    c1cfg.handlers HandlerType.rawUpdate = [HOutcome.ok] ∧
    callHandlers c1cfg c1bad = [] ∧
    Event.raw 0 c1bad ∉ callHandlers c1cfg c1bad := by
  refine ⟨rfl, rfl, rfl, ?_⟩
  rw [show callHandlers c1cfg c1bad = [] from rfl]
  exact List.not_mem_nil _

/-- C1 (amended): for every raw update from which the classifier cannot
extract the first entry's first change, the classification error is caught by
`_call_handlers` and the method returns at once: zero category handlers run
and zero raw-update handlers run. -/
theorem C1_dispatch_aborts (cfg : ServerCfg) (u : JSON) (e : PyErr)
    (h : extractChange u = Except.error e) :
    callHandlers cfg u = [] := by
  simp [callHandlers, getHandler, h]

/-- C1 witness: the amended theorem applied to the empty update. -/
theorem C1_dispatch_aborts_witness :
    extractChange c1bad = Except.error PyErr.keyError ∧ callHandlers c1cfg c1bad = [] :=
  ⟨rfl, C1_dispatch_aborts c1cfg c1bad PyErr.keyError rfl⟩

/-- C2: when classification yields a category and the update constructor
succeeds, the category's handlers run first, in registration order (indices
`0, 1, ...` in sequence), then the raw-update handlers run with the untouched
raw update, in registration order, each loop with its own stop scope; in
either loop, handler `i` runs exactly when no handler before it raised the
stop-propagation signal — a handler raising any other error does not prevent
later handlers from running, and nothing in the category loop affects the raw
loop. -/
theorem C2_handler_order (cfg : ServerCfg) (update : JSON) (t : HandlerType)
    (hclass : getHandler cfg update = Except.ok (some t))
    (hcons : cfg.constructOk t update = true) :
    callHandlers cfg update =
      (List.range (runCount (cfg.handlers t))).map Event.cat ++
      (List.range (runCount (cfg.handlers HandlerType.rawUpdate))).map
        (fun i => Event.raw i update) ∧
    ∀ hs : List HOutcome, ∀ i : Nat,
      i < runCount hs ↔ i < hs.length ∧ ∀ j, j < i → hs.get? j ≠ some HOutcome.stop := by
  constructor
  · unfold callHandlers
    rw [hclass]
    simp [hcons, runLoop_eq_range]
  · exact fun hs i => runCount_lt_iff hs i

/-- C2 witness: a status update dispatched to four message-status handlers
(the third raises stop-propagation) and two raw-update handlers (the first
raises stop-propagation). -/
theorem C2_handler_order_witness :
    getHandler c2cfg c2update = Except.ok (some HandlerType.messageStatus) ∧
    c2cfg.constructOk HandlerType.messageStatus c2update = true ∧
    (callHandlers c2cfg c2update =
      (List.range (runCount (c2cfg.handlers HandlerType.messageStatus))).map Event.cat ++
      (List.range (runCount (c2cfg.handlers HandlerType.rawUpdate))).map
        (fun i => Event.raw i c2update) ∧
     ∀ hs : List HOutcome, ∀ i : Nat,
       i < runCount hs ↔ i < hs.length ∧ ∀ j, j < i → hs.get? j ≠ some HOutcome.stop) :=
  ⟨rfl, rfl, C2_handler_order c2cfg c2update HandlerType.messageStatus rfl rfl⟩

/-- C6 counterexample: with update filtering on and a mismatched recipient
phone-number id, a `messages` update whose first message has type
`interactive` and no interactive sub-type key is classified as none, not as
the generic message category — the claim fails without the recipient-filter
proviso. -/
theorem C6_counterexample :
    extractChange c6update = Except.ok (JSON.str "messages", c6value) ∧
    pySub c6value "messages" =
      Except.ok (JSON.arr [JSON.obj [("type", JSON.str "interactive")]]) ∧
    interactiveSubtype (JSON.obj [("type", JSON.str "interactive")]) =
      Except.error PyErr.keyError ∧
    c6cfg.filterUpdates = true ∧
    getHandler c6cfg c6update = Except.ok none ∧
    getHandler c6cfg c6update ≠ Except.ok (some HandlerType.message) := by
  refine ⟨rfl, rfl, rfl, rfl, rfl, ?_⟩
  intro h
  rw [show getHandler c6cfg c6update = Except.ok none from rfl] at h
  simp at h

/-- C6 (amended): for every `messages` update passing the recipient-identity
filter whose first message has type `interactive`: if the interactive sub-type
key is missing entirely (a `KeyError` probe), classification yields the
generic message category; and if the sub-type is present but not one of
`button_reply`, `list_reply`, `nfm_reply`, classification also yields the
generic message category — in neither case does it fail or yield none. -/
theorem C6_interactive_fallback (cfg : ServerCfg) (u value msgs m0 : JSON)
    (hx : extractChange u = Except.ok (JSON.str "messages", value))
    (hflt : filterCheck cfg value = Except.ok true)
    (hin : pyContains value "messages" = Except.ok true)
    (hms : pySub value "messages" = Except.ok msgs)
    (hm0 : pyIdx msgs 0 = Except.ok m0)
    (hty : pySub m0 "type" = Except.ok (JSON.str "interactive")) :
    (interactiveSubtype m0 = Except.error PyErr.keyError →
      getHandler cfg u = Except.ok (some HandlerType.message)) ∧
    ∀ s : String,
      interactiveSubtype m0 = Except.ok (JSON.str s) →
      s ≠ "button_reply" → s ≠ "list_reply" → s ≠ "nfm_reply" →
      getHandler cfg u = Except.ok (some HandlerType.message) := by
  constructor
  · intro hsub
    unfold getHandler
    rw [hx]
    simp [JSON.eqStr, hflt, hin, hms, hm0, hty, hsub]
  · intro s hsub h1 h2 h3
    unfold getHandler
    rw [hx]
    simp [JSON.eqStr, hflt, hin, hms, hm0, hty, hsub, interactiveTypesGet,
      messageTypesGet, h1, h2, h3]

/-- C6 witness: with filtering off, an interactive message without the
sub-type key and one with unknown sub-type `weird_reply` both classify as the
generic message category. -/
theorem C6_interactive_fallback_witness :
    getHandler c6wcfg c6wupdateA = Except.ok (some HandlerType.message) ∧
    getHandler c6wcfg c6wupdateB = Except.ok (some HandlerType.message) :=
  ⟨(C6_interactive_fallback c6wcfg c6wupdateA c6wvalueA
      (JSON.arr [c6wmsgA]) c6wmsgA rfl rfl rfl rfl rfl rfl).1 rfl,
   (C6_interactive_fallback c6wcfg c6wupdateB c6wvalueB
      (JSON.arr [c6wmsgB]) c6wmsgB rfl rfl rfl rfl rfl rfl).2 "weird_reply" rfl
      (by decide) (by decide) (by decide)⟩

/-- C7: a well-shaped update (first change extractable, `field` a string)
whose field is not `messages` and is absent from the
`Handler._fields_to_subclasses()` table classifies as none without raising,
and dispatch then runs exactly the raw-update handlers. -/
theorem C7_unknown_field (cfg : ServerCfg) (u value : JSON) (s : String)
    (hx : extractChange u = Except.ok (JSON.str s, value))
    (hs : s ≠ "messages")
    (ht : cfg.fieldsToSubclasses s = none) :
    getHandler cfg u = Except.ok none ∧
    callHandlers cfg u =
      (List.range (runCount (cfg.handlers HandlerType.rawUpdate))).map
        (fun i => Event.raw i u) := by
  have hg : getHandler cfg u = Except.ok none := by
    unfold getHandler
    rw [hx]
    simp [JSON.eqStr, hs, ht]
  refine ⟨hg, ?_⟩
  unfold callHandlers
  rw [hg]
  simp [runLoop_eq_range]

/-- C7 witness: an `account_update` field absent from the table, with two
raw-update handlers registered. -/
theorem C7_unknown_field_witness :
    extractChange c7update = Except.ok (JSON.str "account_update", JSON.obj []) ∧
    (getHandler c7cfg c7update = Except.ok none ∧
     callHandlers c7cfg c7update =
       (List.range (runCount (c7cfg.handlers HandlerType.rawUpdate))).map
         (fun i => Event.raw i c7update)) :=
  ⟨rfl, C7_unknown_field c7cfg c7update (JSON.obj []) "account_update" rfl
      (by decide) rfl⟩

/-- C9: the verification challenge returns the received challenge string with
status 200 exactly when the received token equals the configured verify-token,
and the fixed error body with status 403 otherwise. -/
theorem C9_challenge (verifyToken vt ch : String) :
    (vt = verifyToken → challengeHandler verifyToken vt ch = (ch, 200)) ∧
    (vt ≠ verifyToken →
      challengeHandler verifyToken vt ch = ("Error, invalid verification token", 403)) := by
  constructor
  · intro h
    simp [challengeHandler, h]
  · intro h
    simp [challengeHandler, h]

/-- C9 witness: a matching and a non-matching token with challenge `abc123`. -/
theorem C9_challenge_witness :
    challengeHandler "secret" "secret" "abc123" = ("abc123", 200) ∧
    challengeHandler "secret" "wrong" "abc123" =
      ("Error, invalid verification token", 403) :=
  ⟨(C9_challenge "secret" "secret" "abc123").1 rfl,
   (C9_challenge "secret" "wrong" "abc123").2 (by decide)⟩

/-- C3: when the decryption step of a flow request fails in any way, the
handler returns the fixed plaintext body `Decryption failed` with status
code 421, and the application callback is never invoked. -/
theorem C3_decryption_failure (cfg : FlowConfig) (payload : JSON)
    (h : cfg.decryptor payload = none) :
    flowRequestHandler cfg payload =
      ⟨some (Body.plain "Decryption failed", 421), false⟩ := by
  simp [flowRequestHandler, flowRequestCannotBeDecryptedStatusCode, h]

/-- C3 witness: a configuration whose decryptor always fails. -/
theorem C3_decryption_failure_witness :
    flowRequestHandler c3cfg (JSON.obj []) =
      ⟨some (Body.plain "Decryption failed", 421), false⟩ :=
  C3_decryption_failure c3cfg (JSON.obj []) rfl

/-- C5: a flow request that decrypts to a mapping with `action` equal to
`ping` (and, per the decrypted-request data model, a `version`), with
health-check handling enabled, yields the encrypted mapping
`{version, data: {status: "active"}}` under the recovered key and IV with
status 200, and the application callback is never invoked. -/
theorem C5_health_check (cfg : FlowConfig) (payload decrypted v : JSON)
    (aesKey iv : String)
    (hd : cfg.decryptor payload = some (decrypted, aesKey, iv))
    (hh : cfg.handleHealthCheck = true)
    (ha : pySub decrypted "action" = Except.ok (JSON.str "ping"))
    (hv : pySub decrypted "version" = Except.ok v) :
    flowRequestHandler cfg payload =
      ⟨some (Body.encrypted
              (JSON.obj [("version", v),
                         ("data", JSON.obj [("status", JSON.str "active")])])
              aesKey iv, 200), false⟩ := by
  simp [flowRequestHandler, healthCheckStage, hd, hh, ha, hv, JSON.eqStr]

/-- C5 witness: a ping request decrypting to `c5dec` under key `aes` and IV
`iv`. -/
theorem C5_health_check_witness :
    flowRequestHandler c5cfg (JSON.obj []) =
      ⟨some (Body.encrypted
              (JSON.obj [("version", JSON.str "3.0"),
                         ("data", JSON.obj [("status", JSON.str "active")])])
              "aes" "iv", 200), false⟩ :=
  C5_health_check c5cfg (JSON.obj []) c5dec (JSON.str "3.0") "aes" "iv"
    rfl rfl rfl rfl

/-- C4 counterexample: with acknowledge-errors mode on and a parsed request
reporting an existing error condition, a callback that returns a
`FlowResponseError` value makes the handler answer with that error's class
name as plaintext and its status code 430 — not with the encrypted
acknowledgment and status 200 the claim demands for every returned value. -/
theorem C4_counterexample :
    c4cfg.acknowledgeErrors = true ∧
    c4cfg.fromDict (JSON.obj []) = some c4req ∧
    c4req.hasError = true ∧
    c4cfg.callback c4req = CallbackOutcome.returns (CallbackValue.flowError c4err) ∧
    flowRequestHandler c4cfg (JSON.obj []) =
      ⟨some (Body.plain "FlowResponseRejected", 430), true⟩ ∧
    (flowRequestHandler c4cfg (JSON.obj [])).response.map Prod.snd ≠ some 200 := by
  refine ⟨rfl, rfl, rfl, rfl, rfl, ?_⟩
  rw [show flowRequestHandler c4cfg (JSON.obj []) =
    ⟨some (Body.plain "FlowResponseRejected", 430), true⟩ from rfl]
  decide

/-- C4 (amended): with acknowledge-errors mode on and a parsed request
reporting an existing error condition, the handler returns the encrypted
mapping `{version, data: {acknowledged: true}}` with status 200 regardless of
the value the callback returned, provided that value is not a
`FlowResponseError` instance (a returned error value is re-raised and handled
by the error branches before the acknowledgment short-circuit). -/
theorem C4_error_acknowledged (cfg : FlowConfig) (payload decrypted : JSON)
    (aesKey iv : String) (req : FlowRequest) (v : CallbackValue)
    (hd : cfg.decryptor payload = some (decrypted, aesKey, iv))
    (hh : healthCheckStage cfg decrypted = HealthOutcome.cont)
    (hp : cfg.fromDict decrypted = some req)
    (hack : cfg.acknowledgeErrors = true)
    (herr : req.hasError = true)
    (hcb : cfg.callback req = CallbackOutcome.returns v)
    (hv : v.isFlowError = false) :
    flowRequestHandler cfg payload =
      ⟨some (Body.encrypted
              (JSON.obj [("version", JSON.str req.version),
                         ("data", JSON.obj [("acknowledged", JSON.bool true)])])
              aesKey iv, 200), true⟩ := by
  cases v with
  | flowError e => simp [CallbackValue.isFlowError] at hv
  | flowResponse d =>
    simp [flowRequestHandler, flowInvoke, hd, hh, hp, hack, herr, hcb]
  | dict d =>
    simp [flowRequestHandler, flowInvoke, hd, hh, hp, hack, herr, hcb]
  | other =>
    simp [flowRequestHandler, flowInvoke, hd, hh, hp, hack, herr, hcb]

/-- C4 witness: the amended theorem applied to a callback returning a value
that is not an accepted response shape at all; the acknowledgment still wins. -/
theorem C4_error_acknowledged_witness :
    flowRequestHandler c4wcfg (JSON.obj []) =
      ⟨some (Body.encrypted
              (JSON.obj [("version", JSON.str "3.0"),
                         ("data", JSON.obj [("acknowledged", JSON.bool true)])])
              "aes" "iv", 200), true⟩ :=
  C4_error_acknowledged c4wcfg (JSON.obj []) (JSON.obj []) "aes" "iv" c4req
    CallbackValue.other rfl rfl rfl rfl rfl rfl rfl

/-- C8: when the application callback of a flow request that decrypted,
passed the health-check stage and parsed successfully raises the
`FlowTokenNoLongerValid` error carrying a message and a status code, the
handler returns the encrypted mapping `{error_msg: <message>}` under the
recovered key and IV with that error's status code. -/
theorem C8_token_invalid (cfg : FlowConfig) (payload decrypted : JSON)
    (aesKey iv : String) (req : FlowRequest) (e : FlowRespError)
    (hd : cfg.decryptor payload = some (decrypted, aesKey, iv))
    (hh : healthCheckStage cfg decrypted = HealthOutcome.cont)
    (hp : cfg.fromDict decrypted = some req)
    (hcb : cfg.callback req = CallbackOutcome.raises (PyExc.flowError e))
    (htok : e.isTokenNoLongerValid = true) :
    flowRequestHandler cfg payload =
      ⟨some (Body.encrypted (JSON.obj [("error_msg", JSON.str e.errorMessage)])
              aesKey iv, e.statusCode), true⟩ := by
  simp [flowRequestHandler, flowInvoke, hd, hh, hp, hcb, htok]

/-- C8 witness: a callback raising `FlowTokenNoLongerValid` with message
`expired` and status 427. -/
theorem C8_token_invalid_witness :
    flowRequestHandler c8cfg (JSON.obj []) =
      ⟨some (Body.encrypted (JSON.obj [("error_msg", JSON.str "expired")])
              "aes" "iv", 427), true⟩ :=
  C8_token_invalid c8cfg (JSON.obj []) (JSON.obj []) "aes" "iv" c8req c8err
    rfl rfl rfl rfl rfl

/-- C10: a `FlowResponseError` value returned (not raised) by the application
callback is treated exactly as if the callback had raised it: the invoke
block's result is the same as with a raising callback, namely the encrypted
`{error_msg}` body with the error's status code when the error is
`FlowTokenNoLongerValid`, and the error's class name as plaintext with its
status code otherwise. -/
theorem C10_returned_error_as_raised (cfg cfgR : FlowConfig) (req : FlowRequest)
    (aesKey iv : String) (e : FlowRespError)
    (h : cfg.callback req = CallbackOutcome.returns (CallbackValue.flowError e))
    (hR : cfgR.callback req = CallbackOutcome.raises (PyExc.flowError e)) :
    flowInvoke cfg req aesKey iv = flowInvoke cfgR req aesKey iv ∧
    flowInvoke cfg req aesKey iv =
      (if e.isTokenNoLongerValid then
        ⟨some (Body.encrypted (JSON.obj [("error_msg", JSON.str e.errorMessage)])
                aesKey iv, e.statusCode), true⟩
      else ⟨some (Body.plain e.className, e.statusCode), true⟩) := by
  constructor
  · simp [flowInvoke, h, hR]
  · simp [flowInvoke, h]

/-- C10 witness: two configurations differing only in whether the callback
returns or raises the same token-no-longer-valid error produce the same
result. -/
theorem C10_returned_error_as_raised_witness :
    flowInvoke c10cfgRet c10req "aes" "iv" = flowInvoke c10cfgRaise c10req "aes" "iv" ∧
    flowInvoke c10cfgRet c10req "aes" "iv" =
      (if c10err.isTokenNoLongerValid then
        ⟨some (Body.encrypted (JSON.obj [("error_msg", JSON.str "gone")])
                "aes" "iv", 427), true⟩
      else ⟨some (Body.plain "FlowTokenNoLongerValid", 427), true⟩) :=
  C10_returned_error_as_raised c10cfgRet c10cfgRaise c10req "aes" "iv" c10err
    rfl rfl

end Pywa
